import Mathlib

/-!
# Verification of the `blog` content-collection schema

This file formalises, as a shallow embedding, the frontmatter validation
schema of `src/content/config.ts`:

```
const blog = defineCollection({
    type: 'content',
    schema: z.object({
        title: z.string(),
        description: z.string(),
        pubDate: z.coerce.date(),
        tags: z.array(z.string()).optional(),
        image: z.string().optional(),
    }),
});
```

Frontmatter values are modelled by the inductive `Value` (text, number,
boolean, null, date, and sequences of values); a frontmatter record is a
key/value association list.  The schema combinators used by the source
(`z.string`, `z.coerce.date`, `z.array(z.string()).optional`,
`z.string().optional`, `z.object`) are embedded one by one below; error
reporting follows the spec's taxonomy (`MissingRequiredField`,
`TypeMismatch`, `UnparseableDate`).

Dates are represented the way the host represents them: a time value
(milliseconds since the epoch), with `none` standing for an invalid
date.  `z.coerce.date()` evaluates `new Date(input)`: the conversion of
each kind of input to a time value is embedded in `coerceDateVal`.  Text
parsing of dates is modelled for the ISO `YYYY-MM-DD` date-only format
(the format the repository's content uses); text outside that subset is
treated as unparseable.
-/

/-- A raw frontmatter value, as read from the metadata header of a
markdown file. -/
inductive Value where
  | vstr (s : String)
  | vnum (n : Int)
  | vbool (b : Bool)
  | vnull
  | vdate (time : Option Int)
  | vlist (elems : List Value)
deriving Repr

/-- A raw frontmatter record: an association of field names to raw
values.  Lookup takes the first binding of a key. -/
abbrev Record : Type := List (String × Value)

/-- A validation error, following the spec's error taxonomy.  A
`typeMismatch` inside a sequence carries the index of the offending
element. -/
inductive FieldError where
  | missingRequiredField (field : String)
  | typeMismatch (field : String) (index : Option Nat)
  | unparseableDate (field : String)
deriving Repr, DecidableEq

/-- The validated, strongly-typed record produced by the schema
(`BlogPostEntry`'s frontmatter part).  `pubDate` is the canonical date
value: milliseconds since the epoch. -/
structure BlogPost where
  title : String
  description : String
  pubDate : Int
  tags : Option (List String)
  image : Option String
deriving Repr, DecidableEq

/-- Is a year a leap year (proleptic Gregorian, as the host calendar). -/
def isLeapYear (y : Nat) : Bool :=
  (y % 4 = 0 && y % 100 != 0) || y % 400 = 0

/-- Number of days in a month of a given year. -/
def daysInMonth (y m : Nat) : Nat :=
  if m = 2 then (if isLeapYear y then 29 else 28)
  else if m = 4 || m = 6 || m = 9 || m = 11 then 30
  else 31

/-- Days from the epoch 1970-01-01 to year `y`, month `m`, day `d`
(civil-calendar day count; `y` is the proleptic Gregorian year). -/
def daysFromCivil (y m d : Nat) : Int :=
  let y' : Int := if m ≤ 2 then (y : Int) - 1 else (y : Int)
  let era : Int := (if 0 ≤ y' then y' else y' - 399) / 400
  let yoe : Nat := (y' - era * 400).toNat
  let mp : Nat := if m > 2 then m - 3 else m + 9
  let doy : Nat := (153 * mp + 2) / 5 + d - 1
  let doe : Nat := yoe * 365 + yoe / 4 - yoe / 100 + doy
  era * 146097 + (doe : Int) - 719468

/-- Read a non-empty all-digit character list as a number. -/
def digitsToNat (cs : List Char) : Option Nat :=
  if cs ≠ [] && cs.all Char.isDigit then
    some (cs.foldl (fun a c => a * 10 + (c.toNat - 48)) 0)
  else none

/-- Split a character list into the groups separated by `-` (the
group boundaries of the ISO date format). -/
def splitDash : List Char → List (List Char)
  | [] => [[]]
  | c :: rest =>
    let r := splitDash rest
    if c = '-' then [] :: r
    else
      match r with
      | [] => [[c]]
      | g :: gs => (c :: g) :: gs

/-- Host date parsing of text, modelled for the ISO `YYYY-MM-DD`
date-only format: four digit year, two digit month and day, a valid
calendar date.  Returns the time value (UTC midnight, in milliseconds
since the epoch); `none` when the text is not a parseable date. -/
def jsParseDate (s : String) : Option Int :=
  match splitDash s.toList with
  | [ys, ms, ds] =>
    if ys.length = 4 && ms.length = 2 && ds.length = 2 then
      match digitsToNat ys, digitsToNat ms, digitsToNat ds with
      | some y, some m, some d =>
        if 1 ≤ m && m ≤ 12 && 1 ≤ d && d ≤ daysInMonth y m then
          some (daysFromCivil y m d * 86400000)
        else none
      | _, _, _ => none
    else none
  | _ => none

/-- Largest representable absolute time value of a host date
(8.64e15 milliseconds; beyond it `new Date` yields an invalid date). -/
def maxTimeValue : Nat := 8640000000000000

/-- String conversion applied to the elements of a sequence when the
host converts the sequence itself to text (`Array.prototype.join` with
separator `","`): null becomes empty text, numbers and booleans print
themselves.  A date element prints in the host's long date format,
which lies outside the modelled ISO subset, hence maps to text no ISO
parse accepts. -/
def joinElemStr : Value → String
  | .vstr s => s
  | .vnum n => toString n
  | .vbool b => cond b "true" "false"
  | .vnull => ""
  | .vdate _ => "[host date string]"
  | .vlist es => String.intercalate "," (es.attach.map fun e => joinElemStr e.1)
decreasing_by
  have h := List.sizeOf_lt_of_mem e.2
  simp only [Value.vlist.sizeOf_spec]
  omega

/-- `new Date(input)` of the host, per kind of input: a date keeps its
time value, text is parsed, a number is clipped to the representable
range and taken as a time value, `true`/`false`/`null` convert to
1/0/0, and a sequence is converted to text and parsed. -/
def coerceDateVal : Value → Option Int
  | .vdate t => t
  | .vstr s => jsParseDate s
  | .vnum n => if n.natAbs ≤ maxTimeValue then some n else none
  | .vbool b => some (cond b 1 0)
  | .vnull => some 0
  | .vlist es => jsParseDate (String.intercalate "," (es.map joinElemStr))

/-- `z.string()` on a required field: absent input is a missing
required field, non-text input is a type mismatch. -/
def reqString (field : String) : Option Value → Except (List FieldError) String
  | none => .error [.missingRequiredField field]
  | some (.vstr s) => .ok s
  | some _ => .error [.typeMismatch field none]

/-- `z.coerce.date()` on the `pubDate` field: every input (an absent
field included) is passed through the date conversion `new Date`, and
an invalid result is an unparseable-date error.  An absent field
converts like `undefined`, to an invalid date. -/
def coercePubDate (field : String) : Option Value → Except (List FieldError) Int
  | none => .error [.unparseableDate field]
  | some v =>
    match coerceDateVal v with
    | some t => .ok t
    | none => .error [.unparseableDate field]

/-- Extract the text of a text value. -/
def asStr : Value → Option String
  | .vstr s => some s
  | _ => none

/-- Is a value a text value. -/
def isVStr (v : Value) : Bool := (asStr v).isSome

/-- `z.array(z.string())` elementwise: collect the elements' text when
every element is text, otherwise report a type mismatch at the index of
every offending element (`i` is the index of the head). -/
def checkTagList (field : String) (i : Nat) :
    List Value → Except (List FieldError) (List String)
  | [] => .ok []
  | v :: vs =>
    match asStr v, checkTagList field (i + 1) vs with
    | some s, .ok ss => .ok (s :: ss)
    | some _, .error es => .error es
    | none, .ok _ => .error [.typeMismatch field (some i)]
    | none, .error es => .error (.typeMismatch field (some i) :: es)

/-- `z.array(z.string()).optional()` on the `tags` field: an absent
field is accepted as unset, a present field must be a sequence of text
values. -/
def checkTags (field : String) :
    Option Value → Except (List FieldError) (Option (List String))
  | none => .ok none
  | some (.vlist vs) => (checkTagList field 0 vs).map some
  | some _ => .error [.typeMismatch field none]

/-- `z.string().optional()` on the `image` field: an absent field is
accepted as unset, a present field must be text. -/
def checkImage (field : String) : Option Value → Except (List FieldError) (Option String)
  | none => .ok none
  | some (.vstr s) => .ok (some s)
  | some _ => .error [.typeMismatch field none]

/-- The errors of a field result (none on success). -/
def errsOf {α : Type} : Except (List FieldError) α → List FieldError
  | .ok _ => []
  | .error es => es

/-- The `z.object({...})` schema of the `blog` collection: look up the
five declared fields (unknown keys are stripped), validate each, and
either build the typed record or aggregate every field's errors. -/
def parseBlog (r : Record) : Except (List FieldError) BlogPost :=
  let t := reqString "title" (r.lookup "title")
  let de := reqString "description" (r.lookup "description")
  let pd := coercePubDate "pubDate" (r.lookup "pubDate")
  let tg := checkTags "tags" (r.lookup "tags")
  let im := checkImage "image" (r.lookup "image")
  match t, de, pd, tg, im with
  | .ok a, .ok b, .ok c, .ok d, .ok e => .ok ⟨a, b, c, d, e⟩
  | t, de, pd, tg, im =>
    .error (errsOf t ++ errsOf de ++ errsOf pd ++ errsOf tg ++ errsOf im)

/-- Did validation succeed. -/
def vOk {α : Type} : Except (List FieldError) α → Bool
  | .ok _ => true
  | .error _ => false

/-- Does a validation result carry a given error. -/
def hasErr {α : Type} (res : Except (List FieldError) α) (e : FieldError) : Bool :=
  match res with
  | .ok _ => false
  | .error es => decide (e ∈ es)

/-- The spec's date-or-text input union for `pubDate`: a valid native
date yields its time value, text yields its parse; anything else is
outside the union. -/
def dateInput : Value → Option Int
  | .vdate (some t) => some t
  | .vstr s => jsParseDate s
  | _ => none

/-- The spec's well-typedness of an optional `tags` field: absent is
unset, a sequence of text values is its list of texts, anything else is
ill-typed. -/
def tagsView : Option Value → Option (Option (List String))
  | none => some none
  | some (.vlist vs) => (vs.mapM asStr).map some
  | some _ => none

/-- The spec's well-typedness of an optional `image` field: absent is
unset, text is itself, anything else is ill-typed. -/
def imageView : Option Value → Option (Option String)
  | none => some none
  | some (.vstr s) => some (some s)
  | some _ => none

/-- The five field names declared by the schema. -/
def knownKeys : List String := ["title", "description", "pubDate", "tags", "image"]

/-- The sub-record of a frontmatter record on the five declared keys. -/
def restrictKnown (r : Record) : Record :=
  r.filter fun kv => knownKeys.contains kv.1

/-- Re-serialize a validated record as a frontmatter record (the
validator's output viewed as input again): unset optional fields are
omitted, the date is a native date value. -/
def toRecord (p : BlogPost) : Record :=
  [("title", Value.vstr p.title),
   ("description", Value.vstr p.description),
   ("pubDate", Value.vdate (some p.pubDate))]
  ++ (match p.tags with
      | none => []
      | some ss => [("tags", Value.vlist (ss.map Value.vstr))])
  ++ (match p.image with
      | none => []
      | some s => [("image", Value.vstr s)])

/-- Modelled from the spec: the collection build step of the external
static-site build tool, which validates every entry of the `blog`
collection and aborts the build (producing no artifact) as soon as any
entry fails, rather than dropping or defaulting invalid entries. -/
def buildCollection (entries : List Record) : Except (List FieldError) (List BlogPost) :=
  entries.mapM parseBlog

/-- The claim-side notion of a bad required-field input: absent, or
present but not text. -/
def badReqInput : Option Value → Bool
  | none => true
  | some v => !(isVStr v)

/-! ## Auxiliary lemmas -/

/-- Field-level success equations assemble into record-level success. -/
theorem parseBlog_ok (r : Record) (t de : String) (d : Int)
    (tg : Option (List String)) (im : Option String)
    (h1 : reqString "title" (r.lookup "title") = .ok t)
    (h2 : reqString "description" (r.lookup "description") = .ok de)
    (h3 : coercePubDate "pubDate" (r.lookup "pubDate") = .ok d)
    (h4 : checkTags "tags" (r.lookup "tags") = .ok tg)
    (h5 : checkImage "image" (r.lookup "image") = .ok im) :
    parseBlog r = .ok ⟨t, de, d, tg, im⟩ := by
  simp only [parseBlog, h1, h2, h3, h4, h5]

/-- A result that carries an error is not a success. -/
theorem vOk_false_of_hasErr {α : Type} (res : Except (List FieldError) α)
    (e : FieldError) (h : hasErr res e = true) : vOk res = false := by
  cases res <;> simp_all [hasErr, vOk]

/-- An error reported by any of the five field validators appears in
the aggregated record-level error list. -/
theorem hasErr_parseBlog (r : Record) (e : FieldError)
    (h : e ∈ errsOf (reqString "title" (r.lookup "title"))
       ++ errsOf (reqString "description" (r.lookup "description"))
       ++ errsOf (coercePubDate "pubDate" (r.lookup "pubDate"))
       ++ errsOf (checkTags "tags" (r.lookup "tags"))
       ++ errsOf (checkImage "image" (r.lookup "image"))) :
    hasErr (parseBlog r) e = true := by
  simp only [parseBlog]
  split
  · rename_i a b c d e' h1 h2 h3 h4 h5
    rw [h1, h2, h3, h4, h5] at h
    simp [errsOf] at h
  · simpa [hasErr] using h

/-- A sequence of text values validates to its list of texts, from any
starting index. -/
theorem checkTagList_map (field : String) (ss : List String) :
    ∀ k : Nat, checkTagList field k (ss.map Value.vstr) = .ok ss := by
  induction ss with
  | nil => intro k; rfl
  | cons s ss ih => intro k; simp [checkTagList, asStr, ih]

/-- Elementwise extraction succeeding means elementwise validation
succeeds with the same texts. -/
theorem checkTagList_of_mapM (field : String) (vs : List Value) :
    ∀ (k : Nat) (ss : List String), vs.mapM asStr = some ss →
    checkTagList field k vs = .ok ss := by
  induction vs with
  | nil =>
    intro k ss h
    simp only [List.mapM_nil, pure, Option.some.injEq] at h
    subst h
    rfl
  | cons v vs ih =>
    intro k ss h
    simp only [List.mapM_cons] at h
    cases hv : asStr v with
    | none => rw [hv] at h; simp at h
    | some s =>
      rw [hv] at h
      cases hvs : vs.mapM asStr with
      | none => rw [hvs] at h; simp at h
      | some ss2 =>
        rw [hvs] at h
        simp at h
        subst h
        simp [checkTagList, hv, ih (k + 1) ss2 hvs]

/-- A non-text element at index `i` puts a type mismatch at absolute
index `k + i` in the reported error list. -/
theorem checkTagList_errors (field : String) (vs : List Value) :
    ∀ (k i : Nat) (hi : i < vs.length), isVStr (vs.get ⟨i, hi⟩) = false →
    ∃ es, checkTagList field k vs = .error es ∧
      FieldError.typeMismatch field (some (k + i)) ∈ es := by
  induction vs with
  | nil => intro k i hi; simp at hi
  | cons v vs ih =>
    intro k i hi hbad
    cases i with
    | zero =>
      have hbad0 : isVStr v = false := by simpa using hbad
      have hv : asStr v = none := by
        cases hx : asStr v with
        | none => rfl
        | some s => rw [isVStr, hx] at hbad0; simp at hbad0
      cases hrest : checkTagList field (k + 1) vs with
      | ok ss =>
        refine ⟨[.typeMismatch field (some k)], ?_, ?_⟩
        · simp [checkTagList, hv, hrest]
        · simp
      | error es =>
        refine ⟨.typeMismatch field (some k) :: es, ?_, ?_⟩
        · simp [checkTagList, hv, hrest]
        · simp
    | succ j =>
      have hj : j < vs.length := by simpa [List.length_cons, Nat.succ_lt_succ_iff] using hi
      have hbad2 : isVStr (vs.get ⟨j, hj⟩) = false := by
        simpa [List.get_cons_succ] using hbad
      obtain ⟨es, hes, hmem⟩ := ih (k + 1) j hj hbad2
      have hidx : k + 1 + j = k + (j + 1) := by omega
      rw [hidx] at hmem
      cases hv : asStr v with
      | none =>
        refine ⟨.typeMismatch field (some k) :: es, ?_, ?_⟩
        · simp [checkTagList, hv, hes]
        · simp [hmem]
      | some s =>
        refine ⟨es, ?_, hmem⟩
        simp [checkTagList, hv, hes]

/-- Elementwise validation succeeds exactly when every element is
text, from any starting index. -/
theorem checkTagList_isOk (field : String) (vs : List Value) :
    ∀ k : Nat, vOk (checkTagList field k vs) = vs.all isVStr := by
  induction vs with
  | nil => intro k; rfl
  | cons v vs ih =>
    intro k
    have htail := ih (k + 1)
    cases hv : asStr v with
    | none =>
      have : isVStr v = false := by simp [isVStr, hv]
      cases hrest : checkTagList field (k + 1) vs <;>
        simp [checkTagList, hv, hrest, vOk, this]
    | some s =>
      have hsv : isVStr v = true := by simp [isVStr, hv]
      cases hrest : checkTagList field (k + 1) vs with
      | ok ss =>
        rw [hrest] at htail
        simp [checkTagList, hv, hrest, hsv, ← htail, vOk]
      | error es =>
        rw [hrest] at htail
        simp [checkTagList, hv, hrest, hsv, ← htail, vOk]

/-- An input inside the spec's date-or-text union converts to exactly
the date the union assigns it. -/
theorem coerceDateVal_of_dateInput (v : Value) (d : Int)
    (h : dateInput v = some d) : coerceDateVal v = some d := by
  cases v with
  | vstr s => simpa [dateInput, coerceDateVal] using h
  | vdate t =>
    cases t with
    | none => simp [dateInput] at h
    | some t0 => simpa [dateInput, coerceDateVal] using h
  | vnum n => simp [dateInput] at h
  | vbool b => simp [dateInput] at h
  | vnull => simp [dateInput] at h
  | vlist es => simp [dateInput] at h

/-- A well-typed optional `tags` input validates to its view. -/
theorem checkTags_of_view (o : Option Value) (tg : Option (List String))
    (h : tagsView o = some tg) : checkTags "tags" o = .ok tg := by
  cases o with
  | none =>
    simp only [tagsView, Option.some.injEq] at h
    subst h
    rfl
  | some v =>
    cases v with
    | vlist vs =>
      simp only [tagsView] at h
      cases hm : vs.mapM asStr with
      | none => rw [hm] at h; simp at h
      | some ss =>
        rw [hm] at h
        simp at h
        subst h
        simp [checkTags, checkTagList_of_mapM "tags" vs 0 ss hm, Except.map]
    | vstr s => simp [tagsView] at h
    | vnum n => simp [tagsView] at h
    | vbool b => simp [tagsView] at h
    | vnull => simp [tagsView] at h
    | vdate t => simp [tagsView] at h

/-- A well-typed optional `image` input validates to its view. -/
theorem checkImage_of_view (o : Option Value) (im : Option String)
    (h : imageView o = some im) : checkImage "image" o = .ok im := by
  cases o with
  | none =>
    simp only [imageView, Option.some.injEq] at h
    subst h
    rfl
  | some v =>
    cases v with
    | vstr s =>
      simp only [imageView, Option.some.injEq] at h
      subst h
      rfl
    | vlist vs => simp [imageView] at h
    | vnum n => simp [imageView] at h
    | vbool b => simp [imageView] at h
    | vnull => simp [imageView] at h
    | vdate t => simp [imageView] at h

/-- Restricting a record to the declared keys preserves the lookup of
every declared key. -/
theorem lookup_restrictKnown (r : Record) (k : String)
    (hk : knownKeys.contains k = true) :
    (restrictKnown r).lookup k = r.lookup k := by
  induction r with
  | nil => rfl
  | cons kv r ih =>
    obtain ⟨k2, v⟩ := kv
    simp only [restrictKnown] at ih ⊢
    by_cases hm : knownKeys.contains k2 = true
    · rw [List.filter_cons_of_pos (by simpa using hm)]
      rw [List.lookup, List.lookup]
      cases hbeq : k == k2 with
      | true => rfl
      | false => exact ih
    · rw [List.filter_cons_of_neg (by simpa using hm)]
      have hbeq : (k == k2) = false := by
        rw [beq_eq_false_iff_ne]
        intro he
        subst he
        exact hm hk
      have h2 : List.lookup k ((k2, v) :: r) = List.lookup k r := by
        rw [List.lookup, hbeq]
      rw [h2]
      exact ih

/-- A failing entry anywhere in the collection makes the whole
collection build fail. -/
theorem buildCollection_fails_of_mem (entries : List Record) (e : Record)
    (he : e ∈ entries) (hf : vOk (parseBlog e) = false) :
    vOk (buildCollection entries) = false := by
  induction entries with
  | nil => cases he
  | cons a t ih =>
    rw [buildCollection, List.mapM_cons]
    cases hp : parseBlog a with
    | error es => rfl
    | ok p =>
      cases he with
      | head => rw [hp] at hf; simp [vOk] at hf
      | tail _ hmem =>
        have htail := ih hmem
        rw [buildCollection] at htail
        cases hq : t.mapM parseBlog with
        | error es2 => rfl
        | ok ps => rw [hq] at htail; simp [vOk] at htail

/-- The validator's output, re-serialized as a frontmatter record,
revalidates to itself. -/
theorem parseBlog_toRecord (p : BlogPost) : parseBlog (toRecord p) = .ok p := by
  obtain ⟨t, de, d, tg, im⟩ := p
  cases tg with
  | none =>
    cases im with
    | none => rfl
    | some s => rfl
  | some ss =>
    cases im with
    | none =>
      apply parseBlog_ok
      · rfl
      · rfl
      · rfl
      · show checkTags "tags" (some (Value.vlist (ss.map Value.vstr))) = _
        simp [checkTags, checkTagList_map "tags" ss 0, Except.map]
      · rfl
    | some s =>
      apply parseBlog_ok
      · rfl
      · rfl
      · rfl
      · show checkTags "tags" (some (Value.vlist (ss.map Value.vstr))) = _
        simp [checkTags, checkTagList_map "tags" ss 0, Except.map]
      · rfl

/-- A present non-text input to a required text field yields a type
mismatch on that field. -/
theorem reqString_nonstr (field : String) (v : Value) (hv : isVStr v = false) :
    reqString field (some v) = .error [.typeMismatch field none] := by
  cases v with
  | vstr s => simp [isVStr, asStr] at hv
  | vnum n => rfl
  | vbool b => rfl
  | vnull => rfl
  | vdate t => rfl
  | vlist es => rfl

/-! ## The claims -/

/-- Claim C1: every frontmatter record whose `title` and `description`
are non-empty text, whose `pubDate` lies in the date-or-text union and
resolves to a calendar date, and whose `tags` and `image` are
well-typed when present, validates successfully; the validated record
carries exactly the input's title, description, tags and image, with
`pubDate` normalized to the canonical date value. -/
theorem C1_valid_records_validate (r : Record) (t de : String) (v : Value)
    (d : Int) (tg : Option (List String)) (im : Option String)
    (ht : r.lookup "title" = some (.vstr t)) (_htne : t ≠ "")
    (hde : r.lookup "description" = some (.vstr de)) (_hdene : de ≠ "")
    (hp : r.lookup "pubDate" = some v) (hpd : dateInput v = some d)
    (htg : tagsView (r.lookup "tags") = some tg)
    (him : imageView (r.lookup "image") = some im) :
    parseBlog r = .ok ⟨t, de, d, tg, im⟩ := by
  apply parseBlog_ok
  · rw [ht]; rfl
  · rw [hde]; rfl
  · rw [hp]; simp [coercePubDate, coerceDateVal_of_dateInput v d hpd]
  · exact checkTags_of_view _ _ htg
  · exact checkImage_of_view _ _ him

/-- Concrete instance of C1: the repository's own post's frontmatter
shape validates to exactly its values. -/
theorem C1_valid_records_validate_witness :
    parseBlog [("title", Value.vstr "Hello"), ("description", Value.vstr "A post"),
      ("pubDate", Value.vstr "2025-12-27"), ("tags", Value.vlist [Value.vstr "Flutter"]),
      ("image", Value.vstr "/img.png")]
      = .ok ⟨"Hello", "A post", 1766793600000, some ["Flutter"], some "/img.png"⟩ :=
  C1_valid_records_validate
    [("title", Value.vstr "Hello"), ("description", Value.vstr "A post"),
     ("pubDate", Value.vstr "2025-12-27"), ("tags", Value.vlist [Value.vstr "Flutter"]),
     ("image", Value.vstr "/img.png")]
    "Hello" "A post" (Value.vstr "2025-12-27") 1766793600000
    (some ["Flutter"]) (some "/img.png") rfl (by decide) rfl (by decide) rfl (by decide)
    (by decide) (by decide)

/-- Claim C2 fails as stated: the schema's `z.string()` accepts empty
text, so a record whose `title` is the empty string validates
successfully. -/
theorem C2_counterexample :
    parseBlog [("title", Value.vstr ""), ("description", Value.vstr "A post"),
      ("pubDate", Value.vstr "2025-12-27")]
      = .ok ⟨"", "A post", 1766793600000, none, none⟩ := by rfl

/-- Claim C2 (amended): a record whose `title` or `description` is
absent or is not text fails validation, and when the field is absent
the failure carries `MissingRequiredField` naming that field (empty
text is text, hence accepted). -/
theorem C2_required_fields (r : Record) (f : String)
    (hf : f = "title" ∨ f = "description")
    (hbad : badReqInput (r.lookup f) = true) :
    vOk (parseBlog r) = false ∧
      (r.lookup f = none → hasErr (parseBlog r) (.missingRequiredField f) = true) := by
  have key : ∃ e, hasErr (parseBlog r) e = true ∧
      (r.lookup f = none → e = .missingRequiredField f) := by
    cases hl : r.lookup f with
    | none =>
      refine ⟨.missingRequiredField f, ?_, fun _ => rfl⟩
      apply hasErr_parseBlog
      cases hf with
      | inl h => subst h; rw [hl]; simp [reqString, errsOf]
      | inr h => subst h; rw [hl]; simp [reqString, errsOf]
    | some v =>
      have hv : isVStr v = false := by
        rw [hl] at hbad
        simpa [badReqInput] using hbad
      refine ⟨.typeMismatch f none, ?_, fun h => Option.noConfusion h⟩
      apply hasErr_parseBlog
      cases hf with
      | inl h => subst h; rw [hl, reqString_nonstr _ v hv]; simp [errsOf]
      | inr h => subst h; rw [hl, reqString_nonstr _ v hv]; simp [errsOf]
  obtain ⟨e, he, himp⟩ := key
  refine ⟨vOk_false_of_hasErr _ e he, fun hn => ?_⟩
  rw [← himp hn]
  exact he

/-- Concrete instance of C2 (amended): a record with no `title` fails
and reports the missing field. -/
theorem C2_required_fields_witness :
    vOk (parseBlog [("description", Value.vstr "A post"),
      ("pubDate", Value.vstr "2025-12-27")]) = false ∧
      hasErr (parseBlog [("description", Value.vstr "A post"),
        ("pubDate", Value.vstr "2025-12-27")]) (.missingRequiredField "title") = true := by
  have h := C2_required_fields [("description", Value.vstr "A post"),
    ("pubDate", Value.vstr "2025-12-27")] "title" (Or.inl rfl) rfl
  exact ⟨h.1, h.2 rfl⟩

/-- Claim C3: a native-date `pubDate` validates to its time value,
date-formatted text validates to its parse, and text that does not
resolve to a calendar date makes validation fail with
`UnparseableDate`. -/
theorem C3_pubDate_date_or_text (r : Record) (v : Value)
    (hp : r.lookup "pubDate" = some v) :
    (∀ t : Int, v = .vdate (some t) →
      coercePubDate "pubDate" (r.lookup "pubDate") = .ok t) ∧
    (∀ s : String, v = .vstr s →
      (∀ t : Int, jsParseDate s = some t →
        coercePubDate "pubDate" (r.lookup "pubDate") = .ok t) ∧
      (jsParseDate s = none →
        hasErr (parseBlog r) (.unparseableDate "pubDate") = true)) := by
  constructor
  · intro t hv
    subst hv
    rw [hp]
    rfl
  · intro s hv
    subst hv
    constructor
    · intro t hparse
      rw [hp]
      simp [coercePubDate, coerceDateVal, hparse]
    · intro hparse
      apply hasErr_parseBlog
      rw [hp]
      simp [coercePubDate, coerceDateVal, hparse, errsOf]

/-- Concrete instance of C3: the text `not-a-date` fails with
`UnparseableDate`. -/
theorem C3_pubDate_date_or_text_witness :
    hasErr (parseBlog [("title", Value.vstr "Hello"), ("description", Value.vstr "A post"),
      ("pubDate", Value.vstr "not-a-date")]) (.unparseableDate "pubDate") = true :=
  ((C3_pubDate_date_or_text
      [("title", Value.vstr "Hello"), ("description", Value.vstr "A post"),
       ("pubDate", Value.vstr "not-a-date")]
      (Value.vstr "not-a-date") rfl).2 "not-a-date" rfl).2 (by decide)

/-- Validation success of an optional result is unchanged by wrapping
the payload. -/
theorem vOk_map_some {α : Type} (x : Except (List FieldError) α) :
    vOk (x.map some) = vOk x := by
  cases x <;> rfl

/-- Claim C4: a present `tags` field validates exactly when every
element is text, and a non-text element at index `i` makes record
validation fail with a `TypeMismatch` locating index `i`. -/
theorem C4_tags_element_typing (r : Record) (vs : List Value)
    (h : r.lookup "tags" = some (.vlist vs)) :
    (vOk (checkTags "tags" (r.lookup "tags")) = vs.all isVStr) ∧
    (∀ (i : Nat) (hi : i < vs.length), isVStr (vs.get ⟨i, hi⟩) = false →
      hasErr (parseBlog r) (.typeMismatch "tags" (some i)) = true) := by
  constructor
  · rw [h]
    show vOk ((checkTagList "tags" 0 vs).map some) = vs.all isVStr
    rw [vOk_map_some]
    exact checkTagList_isOk "tags" vs 0
  · intro i hi hbad
    obtain ⟨es, hes, hmem⟩ := checkTagList_errors "tags" vs 0 i hi hbad
    have hmem2 : FieldError.typeMismatch "tags" (some i) ∈ es := by simpa using hmem
    apply hasErr_parseBlog
    rw [h]
    simp [checkTags, hes, Except.map, errsOf, hmem2]

/-- Concrete instance of C4: `tags = ["Flutter", 5]` fails with a
`TypeMismatch` at index 1. -/
theorem C4_tags_element_typing_witness :
    hasErr (parseBlog [("title", Value.vstr "Hello"), ("description", Value.vstr "A post"),
      ("pubDate", Value.vstr "2025-12-27"),
      ("tags", Value.vlist [Value.vstr "Flutter", Value.vnum 5])])
      (.typeMismatch "tags" (some 1)) = true :=
  (C4_tags_element_typing
    [("title", Value.vstr "Hello"), ("description", Value.vstr "A post"),
     ("pubDate", Value.vstr "2025-12-27"),
     ("tags", Value.vlist [Value.vstr "Flutter", Value.vnum 5])]
    [Value.vstr "Flutter", Value.vnum 5] rfl).2 1 (by decide) (by decide)

/-- Claim C5: an otherwise-valid record that omits `tags` and `image`
validates with both optional fields unset (not empty-sequence, not
empty text). -/
theorem C5_optional_fields_unset (r : Record) (t de : String) (v : Value) (d : Int)
    (ht : r.lookup "title" = some (.vstr t))
    (hde : r.lookup "description" = some (.vstr de))
    (hp : r.lookup "pubDate" = some v) (hpd : dateInput v = some d)
    (htg : r.lookup "tags" = none) (him : r.lookup "image" = none) :
    parseBlog r = .ok ⟨t, de, d, none, none⟩ := by
  apply parseBlog_ok
  · rw [ht]; rfl
  · rw [hde]; rfl
  · rw [hp]; simp [coercePubDate, coerceDateVal_of_dateInput v d hpd]
  · rw [htg]; rfl
  · rw [him]; rfl

/-- Concrete instance of C5: a record with only the three required
fields validates with `tags` and `image` unset. -/
theorem C5_optional_fields_unset_witness :
    parseBlog [("title", Value.vstr "Hello"), ("description", Value.vstr "A post"),
      ("pubDate", Value.vstr "2025-12-27")]
      = .ok ⟨"Hello", "A post", 1766793600000, none, none⟩ :=
  C5_optional_fields_unset
    [("title", Value.vstr "Hello"), ("description", Value.vstr "A post"),
     ("pubDate", Value.vstr "2025-12-27")]
    "Hello" "A post" (Value.vstr "2025-12-27") 1766793600000
    rfl rfl rfl (by decide) rfl rfl

/-- Claim C6 fails as stated: `z.coerce.date()` passes every input
through the date conversion, so a numeric `pubDate` is coerced to a
valid date and the record validates instead of being rejected. -/
theorem C6_counterexample :
    parseBlog [("title", Value.vstr "Hello"), ("description", Value.vstr "A post"),
      ("pubDate", Value.vnum 0)]
      = .ok ⟨"Hello", "A post", 0, none, none⟩ := by rfl

/-- Claim C6 (amended): `pubDate` inputs outside the date-or-text
union are not rejected outright but converted like the host date
constructor: a number within the representable time range becomes the
date with that time value while an out-of-range number fails as
unparseable, `true` and `false` become the dates 1 and 0, and null
becomes the date 0. -/
theorem C6_nonunion_coerced (n : Int) :
    (n.natAbs ≤ maxTimeValue →
      coercePubDate "pubDate" (some (Value.vnum n)) = .ok n) ∧
    (maxTimeValue < n.natAbs →
      coercePubDate "pubDate" (some (Value.vnum n))
        = .error [.unparseableDate "pubDate"]) ∧
    coercePubDate "pubDate" (some (Value.vbool true)) = .ok 1 ∧
    coercePubDate "pubDate" (some (Value.vbool false)) = .ok 0 ∧
    coercePubDate "pubDate" (some Value.vnull) = .ok 0 := by
  refine ⟨?_, ?_, rfl, rfl, rfl⟩
  · intro h
    simp [coercePubDate, coerceDateVal, h]
  · intro h
    have h2 : ¬ (n.natAbs ≤ maxTimeValue) := by omega
    simp [coercePubDate, coerceDateVal, h2]

/-- Concrete instance of C6 (amended): the number 0 coerces to the
epoch date. -/
theorem C6_nonunion_coerced_witness :
    coercePubDate "pubDate" (some (Value.vnum 0)) = .ok 0 :=
  (C6_nonunion_coerced 0).1 (by decide)

/-- Claim C7: a collection containing any invalid entry fails to
build as a whole: the build aborts with no artifact instead of
dropping or defaulting the entry. -/
theorem C7_collection_fail_fast (entries : List Record) (e : Record)
    (he : e ∈ entries) (hf : vOk (parseBlog e) = false) :
    vOk (buildCollection entries) = false :=
  buildCollection_fails_of_mem entries e he hf

/-- Concrete instance of C7: one valid entry next to one empty (hence
invalid) entry still aborts the whole build. -/
theorem C7_collection_fail_fast_witness :
    vOk (buildCollection
      [[("title", Value.vstr "Hello"), ("description", Value.vstr "A post"),
        ("pubDate", Value.vstr "2025-12-27")], []]) = false :=
  C7_collection_fail_fast
    [[("title", Value.vstr "Hello"), ("description", Value.vstr "A post"),
      ("pubDate", Value.vstr "2025-12-27")], []]
    [] (by simp) (by rfl)

/-- Claim C8: validation is idempotent on valid records: the
validator's output, re-serialized and validated again, yields the
identical normalized record. -/
theorem C8_validation_idempotent (r : Record) (p : BlogPost)
    (_h : parseBlog r = .ok p) : parseBlog (toRecord p) = .ok p :=
  parseBlog_toRecord p

/-- Concrete instance of C8: revalidating the output of a successful
validation reproduces it. -/
theorem C8_validation_idempotent_witness :
    parseBlog (toRecord ⟨"Hello", "A post", 1766793600000, none, none⟩)
      = .ok ⟨"Hello", "A post", 1766793600000, none, none⟩ :=
  C8_validation_idempotent
    [("title", Value.vstr "Hello"), ("description", Value.vstr "A post"),
     ("pubDate", Value.vstr "2025-12-27")]
    ⟨"Hello", "A post", 1766793600000, none, none⟩ (by rfl)

/-- Claim C9: validation depends only on the five declared keys: the
result on any record equals the result on its restriction to those
keys, so unknown keys cause no failure and cannot reach the typed
output. -/
theorem C9_unknown_keys_ignored (r : Record) :
    parseBlog r = parseBlog (restrictKnown r) := by
  simp only [parseBlog]
  rw [lookup_restrictKnown r "title" rfl, lookup_restrictKnown r "description" rfl,
      lookup_restrictKnown r "pubDate" rfl, lookup_restrictKnown r "tags" rfl,
      lookup_restrictKnown r "image" rfl]

/-- Claim C10: an otherwise-valid record whose `tags` is present as an
empty sequence validates with `tags` equal to the empty sequence —
accepted, and distinguishable from the unset field. -/
theorem C10_empty_tags_accepted (r : Record) (t de : String) (v : Value) (d : Int)
    (im : Option String)
    (ht : r.lookup "title" = some (.vstr t))
    (hde : r.lookup "description" = some (.vstr de))
    (hp : r.lookup "pubDate" = some v) (hpd : dateInput v = some d)
    (htg : r.lookup "tags" = some (.vlist []))
    (him : imageView (r.lookup "image") = some im) :
    parseBlog r = .ok ⟨t, de, d, some [], im⟩ := by
  apply parseBlog_ok
  · rw [ht]; rfl
  · rw [hde]; rfl
  · rw [hp]; simp [coercePubDate, coerceDateVal_of_dateInput v d hpd]
  · rw [htg]; rfl
  · exact checkImage_of_view _ _ him

/-- Concrete instance of C10: an explicitly empty tags list validates
to the empty sequence, not to the unset field. -/
theorem C10_empty_tags_accepted_witness :
    parseBlog [("title", Value.vstr "Hello"), ("description", Value.vstr "A post"),
      ("pubDate", Value.vstr "2025-12-27"), ("tags", Value.vlist [])]
      = .ok ⟨"Hello", "A post", 1766793600000, some [], none⟩ :=
  C10_empty_tags_accepted
    [("title", Value.vstr "Hello"), ("description", Value.vstr "A post"),
     ("pubDate", Value.vstr "2025-12-27"), ("tags", Value.vlist [])]
    "Hello" "A post" (Value.vstr "2025-12-27") 1766793600000 none
    rfl rfl rfl (by decide) rfl (by decide)
